import Mathlib

/-
Verification of the MoltApp smoke-test trading script
(`scripts/test-trade.py`): a shallow embedding of its pure logic —
catalog, ticker extraction, environment loading, base58 wallet decoding,
base64 transaction encoding, signing, and the post-order control flow of
`main` — together with theorems settling the specification's claims.
-/

namespace MoltApp

/-- Substring test on character lists: does `needle` occur contiguously in
`haystack`?  Embeds Python's `sym in pick` substring operator
(checks `isPrefixOf` at every suffix of the haystack). -/
def strContains : List Char → List Char → Bool
  | needle, [] => needle.isEmpty
  | needle, b :: rest => needle.isPrefixOf (b :: rest) || strContains needle rest

/-- String-level substring test, `needle ⊆ haystack` as in Python's `in`. -/
def isSubstr (needle haystack : String) : Bool :=
  strContains needle.toList haystack.toList

/-- The xStocks catalog (`STOCKS` dict, test-trade.py lines 33-44), in
declaration order: (ticker symbol, display name, mint address).  Python
dicts preserve insertion order, so iteration order is this list order. -/
def STOCKS : List (String × String × String) :=
  [ ("AAPLx", "Apple", "XsbEhLAtcf6HdfpFZ5xEMdqW8nfAvcsP5bdudRLJzJp"),
    ("TSLAx", "Tesla", "XsDoVfqeBukxuZHWhdvWHBhgEHjGNst4MLodqsJHzoB"),
    ("NVDAx", "NVIDIA", "Xsc9qvGR1efVDFGLrVsmkzv3qi45LTBjeUKSPmx9qEh"),
    ("GOOGLx", "Alphabet", "XsCPL9dNWBMvFtTmwcCA5v3xWPSMEBCszbQdiLLq6aN"),
    ("AMZNx", "Amazon", "Xs3eBt7uRfJX8QUs4suhyU8p2M6DoUDrJyWBa8LLZsg"),
    ("MSFTx", "Microsoft", "XspzcW1PRtgf6Wj92HCiZdjzKCyFekVD8P5Ueh3dRMX"),
    ("METAx", "Meta", "Xsa62P5mvPszXL1krVUnU5ar38bBSVcWAB6fmPCo5Zu"),
    ("SPYx", "S&P 500 ETF", "XsoCS1TfEyfFhfvj8EtZ528L3CaKBDBRqRapnBbDF2W"),
    ("COINx", "Coinbase", "Xs7ZdzSHLU9ftNJsii5fCeJhoRWSC32SQGzGQtePxNu"),
    ("GMEx", "GameStop", "Xsf9mBktVB9BSU5kf4nHxPq5hCBJ2j2ui3ecFGxPRGc") ]

/-- Catalog keys in declaration order (Python's `for sym in STOCKS`). -/
def catalogKeys : List String := STOCKS.map (·.1)

/-- The cleanup loop of `ask_grok` (lines 109-112): scan the keys in order;
the first key that is a substring of the reply replaces the pick
(`break`); if none matches the pick is left unchanged. -/
def scanKeys : List String → String → String
  | [], pick => pick
  | sym :: rest, pick => if isSubstr sym pick then sym else scanKeys rest pick

/-- The ticker-resolution step of `ask_grok` (lines 109-116) applied to the
stripped reply text: run the cleanup loop, then if the result is not a
catalog key fall back to the default `"TSLAx"` with a warning.  Returns
(resolved pick, warning-emitted flag). -/
def resolvePick (reply : String) : String × Bool :=
  let pick := scanKeys catalogKeys reply
  if catalogKeys.contains pick then (pick, false) else ("TSLAx", true)

/-- Python truthiness test `not v` applied to `os.environ.get(name)`:
`None` (unset) and the empty string are both falsy. -/
def isMissing : Option String → Bool
  | none => true
  | some s => s.isEmpty

/-- The configuration loader `load_env` (lines 50-69).  Each argument is
`os.environ.get` of one variable (`none` = unset).  `Except.error names`
models printing the missing names and `sys.exit(1)`; `Except.ok` returns
the three values. -/
def load_env (jupiter_key xai_key private_key : Option String) :
    Except (List String) (String × String × String) :=
  let missing :=
    (if isMissing jupiter_key then ["JUPITER_API_KEY"] else []) ++
    (if isMissing xai_key then ["XAI_API_KEY"] else []) ++
    (if isMissing private_key then ["SOLANA_PRIVATE_KEY"] else [])
  if missing.isEmpty then
    Except.ok (jupiter_key.getD "", xai_key.getD "", private_key.getD "")
  else
    Except.error missing

/-- Big-endian base-256 digits of `n` (no leading zero byte), written with
explicit fuel (`fuel = n` always suffices since `n` shrinks by `/ 256`).
Models Python's arbitrary-precision integer-to-bytes conversion used by
`base58.b58decode`. -/
def natToBEAux : Nat → Nat → List Nat
  | 0, _ => []
  | fuel + 1, n => if n = 0 then [] else natToBEAux fuel (n / 256) ++ [n % 256]

/-- Big-endian byte expansion of a natural number, empty for 0. -/
def natToBE (n : Nat) : List Nat := natToBEAux n n

/-- The Bitcoin base58 alphabet used by the `base58` package. -/
def b58Alphabet : List Char :=
  "123456789ABCDEFGHJKLMNPQRSTUVWXYZabcdefghijkmnopqrstuvwxyz".toList

/-- Value of one base58 digit character, `none` for an invalid character. -/
def b58Digit (c : Char) : Option Nat := b58Alphabet.findIdx? (· == c)

/-- Big-endian base-58 accumulation of a digit string (`none` if any
character is not in the alphabet). -/
def b58num (cs : List Char) : Option Nat :=
  cs.foldl (fun acc c => acc.bind fun n => (b58Digit c).map fun d => n * 58 + d)
    (some 0)

/-- Base58 decoding as done by `base58.b58decode`: leading `'1'` characters
become leading zero bytes, the remainder is decoded as a big-endian base-58
integer and expanded to bytes.  `none` models the `ValueError` raised on an
invalid character. -/
def b58decode (s : String) : Option (List Nat) :=
  (b58num (s.toList.dropWhile (· == '1'))).map fun n =>
    List.replicate (s.toList.takeWhile (· == '1')).length 0 ++ natToBE n

/-- Solders `Keypair` as used by the script: the 64-byte keypair array
(32-byte secret seed followed by the 32-byte public key). -/
structure Keypair where
  bytes : List Nat
  deriving DecidableEq

/-- Solders `Keypair.from_bytes`: accepts exactly 64 bytes, `none` models
the raised error otherwise. -/
def Keypair.from_bytes (raw : List Nat) : Option Keypair :=
  if raw.length = 64 then some ⟨raw⟩ else none

/-- The public key of a keypair: the second half of the 64-byte array
(`Keypair.pubkey()` in solders). -/
def Keypair.pubkeyBytes (kp : Keypair) : List Nat := kp.bytes.drop 32

/-- The wallet loader `load_wallet` (lines 72-75): base58-decode the secret
and build the keypair.  A pure function of its argument; `none` models a
propagated decode error. -/
def load_wallet (private_key_b58 : String) : Option Keypair :=
  (b58decode private_key_b58).bind Keypair.from_bytes

/-- The standard base64 alphabet. -/
def b64Alphabet : List Char :=
  "ABCDEFGHIJKLMNOPQRSTUVWXYZabcdefghijklmnopqrstuvwxyz0123456789+/".toList

/-- Character for a six-bit value. -/
def tbl (n : Nat) : Char := b64Alphabet.getD n 'A'

/-- Six-bit value of a base64 character, `none` for a non-alphabet
character. -/
def dtbl (c : Char) : Option Nat := b64Alphabet.findIdx? (· == c)

/-- Base64 encoding of a byte list (standard padding), as
`base64.b64encode`: three bytes become four alphabet characters; a final
group of one or two bytes is padded with `'='`. -/
def b64e : List Nat → List Char
  | [] => []
  | [a] => [tbl (a / 4), tbl ((a % 4) * 16), '=', '=']
  | [a, b] => [tbl (a / 4), tbl ((a % 4) * 16 + b / 16), tbl ((b % 16) * 4), '=']
  | a :: b :: c :: rest =>
      tbl (a / 4) :: tbl ((a % 4) * 16 + b / 16) :: tbl ((b % 16) * 4 + c / 64) ::
        tbl (c % 64) :: b64e rest

/-- Base64 decoding of a character list, as `base64.b64decode`: groups of
four characters, `'='` padding only in the final group; `none` models the
raised `binascii.Error` on malformed input. -/
def b64d : List Char → Option (List Nat)
  | [] => some []
  | a :: b :: c :: d :: rest =>
    (dtbl a).bind fun x =>
    (dtbl b).bind fun y =>
    if c = '=' then
      if d = '=' ∧ rest = [] then some [x * 4 + y / 16] else none
    else
      (dtbl c).bind fun z =>
      if d = '=' then
        if rest = [] then some [x * 4 + y / 16, (y % 16) * 16 + z / 4] else none
      else
        (dtbl d).bind fun w =>
        (b64d rest).map fun tail =>
          (x * 4 + y / 16) :: ((y % 16) * 16 + z / 4) :: ((z % 4) * 64 + w) :: tail
  | _ => none

/-- String-level base64 decoding (`base64.b64decode` on ASCII text). -/
def b64decode (s : String) : Option (List Nat) := b64d s.toList

/-- String-level base64 encoding (`base64.b64encode(...).decode("ascii")`). -/
def b64encode (raw : List Nat) : String := String.mk (b64e raw)

/-- Solders `VersionedTransaction` as the script uses it: a message plus
the list of keypairs whose signatures it carries (the constructor
`VersionedTransaction(message, keypairs)` signs the message with exactly
the given keypairs, in order, after validating them against the message's
required signers). -/
structure VersionedTransaction (Msg Kp : Type) where
  message : Msg
  signers : List Kp
  deriving DecidableEq

/-- Signer validation performed by solders `VersionedTransaction.try_new`,
the constructor the script's line 164 call goes through: with `expected`
the message's required signer public keys and the supplied keypairs'
public keys as `signerKeys`, construction succeeds exactly when the
keypair count equals the required-signature count and every required
signer key is among the supplied keys; otherwise a `SignerError`
(`NotEnoughSigners` / `TooManySigners` / `KeypairPubkeyMismatch`) is
raised. -/
def tryNewCheck {Msg Kp Pk : Type} [DecidableEq Pk]
    (requiredSigners : Msg → List Pk) (pubkeyOf : Kp → Pk)
    (message : Msg) (keypairs : List Kp) : Bool :=
  let expected := requiredSigners message
  let signerKeys := keypairs.map pubkeyOf
  signerKeys.length == expected.length &&
    expected.all fun k => signerKeys.contains k

/-- Solders constructor `VersionedTransaction(message, keypairs)`
(`try_new`): validate the keypairs against the message's required signers
and sign; `none` models the raised `SignerError`. -/
def VersionedTransaction.try_new {Msg Kp Pk : Type} [DecidableEq Pk]
    (requiredSigners : Msg → List Pk) (pubkeyOf : Kp → Pk)
    (message : Msg) (keypairs : List Kp) :
    Option (VersionedTransaction Msg Kp) :=
  if tryNewCheck requiredSigners pubkeyOf message keypairs then
    some { message := message, signers := keypairs }
  else none

/-- The signing step `sign_transaction` (lines 157-168), parameterised by
the solders wire codec (`VersionedTransaction.from_bytes` / `bytes(...)`)
and by the message's required-signer view (`requiredSigners`, `pubkeyOf`):
base64-decode the order's transaction blob, decode it into a versioned
transaction, rebuild it via `VersionedTransaction(tx.message, [wallet])`,
and base64-encode the result.  `none` models a propagated decode exception
or the constructor's `SignerError`. -/
def sign_transaction {Msg Kp Pk : Type} [DecidableEq Pk]
    (requiredSigners : Msg → List Pk) (pubkeyOf : Kp → Pk)
    (fromBytes : List Nat → Option (VersionedTransaction Msg Kp))
    (toBytes : VersionedTransaction Msg Kp → List Nat)
    (txBlob : String) (wallet : Kp) : Option String :=
  (b64decode txBlob).bind fun tx_bytes =>
  (fromBytes tx_bytes).bind fun tx =>
  (VersionedTransaction.try_new requiredSigners pubkeyOf tx.message
      [wallet]).map fun signed_tx =>
  b64encode (toBytes signed_tx)

/-- Demonstration required-signer view for witnesses: a demo message is
the list of its required signer public keys. -/
def demoRequiredSigners (msg : List Nat) : List Nat := msg

/-- Demonstration public key: a demo keypair is its own public key. -/
def demoPubkeyOf (kp : Nat) : Nat := kp

/-- Concrete demonstration codec for witnesses: the first byte is the
number of required signers, then the required signer keys (the message),
then the signer bytes. -/
def demoFromBytes : List Nat → Option (VersionedTransaction (List Nat) Nat)
  | [] => none
  | k :: rest => some { message := rest.take k, signers := rest.drop k }

/-- Concrete demonstration serialiser matching `demoFromBytes`. -/
def demoToBytes (tx : VersionedTransaction (List Nat) Nat) : List Nat :=
  tx.message.length :: (tx.message ++ tx.signers)

/-- JSON object with string fields, as the script consumes order and
execution responses: an association list preserving field order. -/
abbrev Dict := List (String × String)

/-- Field access via `.get`: `none` when the key is absent. -/
def lookupD (d : Dict) (k : String) : Option String :=
  (d.find? (fun kv => kv.1 == k)).map (·.2)

/-- Key-presence test, Python's `k in d` on a dict. -/
def hasKey (d : Dict) (k : String) : Bool := (lookupD d k).isSome

/-- Terminal behaviour of a run of `main` after the order response is in
hand: a controlled diagnostic exit with status 1, an uncaught exception
propagating out of signing or out of an unguarded dict index, or a normal
completion (exit 0) reporting success or failure. -/
inductive Outcome where
  | exit1 (payload : Dict)
  | uncaughtSignError
  | uncaughtKeyError (key : String)
  | successReport (sig : String)
  | failureReport (payload : Dict)
  deriving DecidableEq

/-- A run record: whether the signing step (line 228) and the execution
step (line 231) were reached, and how the process ended. -/
structure RunTrace where
  signingInvoked : Bool
  executeInvoked : Bool
  outcome : Outcome
  deriving DecidableEq

/-- Steps 4-7 of `main` (lines 223-242), from the received order response
onward.  `signRes` is the result of the signing step when it is reached
(`none` = an exception inside signing); `execResult` is the JSON body of
the HTTP-200 execute response.  Faithfully: missing `"transaction"` key →
print full payload and `sys.exit(1)` before signing; `order["requestId"]`
(line 231) is an unguarded index after signing; `result.get("status")` is
compared to `"Success"`; on the success branch `result["signature"]`
(line 239) is an unguarded index; otherwise the failure JSON is printed
and `main` returns normally (exit 0). -/
def mainFromOrder (order : Dict) (signRes : Option String) (execResult : Dict) :
    RunTrace :=
  if hasKey order "transaction" = false then
    { signingInvoked := false, executeInvoked := false, outcome := .exit1 order }
  else
    match signRes with
    | none =>
      { signingInvoked := true, executeInvoked := false,
        outcome := .uncaughtSignError }
    | some _ =>
      match lookupD order "requestId" with
      | none =>
        { signingInvoked := true, executeInvoked := false,
          outcome := .uncaughtKeyError "requestId" }
      | some _ =>
        if lookupD execResult "status" = some "Success" then
          match lookupD execResult "signature" with
          | none =>
            { signingInvoked := true, executeInvoked := true,
              outcome := .uncaughtKeyError "signature" }
          | some sig =>
            { signingInvoked := true, executeInvoked := true,
              outcome := .successReport sig }
        else
          { signingInvoked := true, executeInvoked := true,
            outcome := .failureReport execResult }

/-- Does an outcome correspond to the process completing with exit code 0?
Only a normal return from `main` (either report branch) does. -/
def completesZero : Outcome → Bool
  | .successReport _ => true
  | .failureReport _ => true
  | _ => false

/-- Substring containment is reflexive: every list occurs in itself. -/
theorem strContains_refl (l : List Char) : strContains l l = true := by
  cases l with
  | nil => rfl
  | cons b rest => simp [strContains, List.isPrefixOf_iff_prefix]

/-- String substring containment is reflexive. -/
theorem isSubstr_refl (s : String) : isSubstr s s = true := by
  unfold isSubstr
  exact strContains_refl s.toList

/-- The cleanup loop is the first key (in list order) that is a substring
of the reply, defaulting to the unmodified reply. -/
theorem scanKeys_eq_find (keys : List String) (reply : String) :
    scanKeys keys reply = ((keys.find? fun s => isSubstr s reply).getD reply) := by
  induction keys with
  | nil => rfl
  | cons k rest ih =>
      cases h : isSubstr k reply with
      | true => simp [scanKeys, h, List.find?_cons_of_pos _ h]
      | false =>
          rw [scanKeys, h, if_neg (by simp), ih,
            List.find?_cons_of_neg _ (by simp [h])]

/-- C1: for every catalog ticker T and every reply containing T as a
substring, the extraction step resolves the reply to exactly one catalog
key — the first key in declared order (AAPLx, TSLAx, NVDAx, GOOGLx, AMZNx,
MSFTx, METAx, SPYx, COINx, GMEx) that is a substring of the reply — and no
default/warning path is taken. -/
theorem ticker_extraction_first_declared_wins (T reply : String)
    (hT : T ∈ catalogKeys) (hsub : isSubstr T reply = true) :
    catalogKeys = ["AAPLx", "TSLAx", "NVDAx", "GOOGLx", "AMZNx",
      "MSFTx", "METAx", "SPYx", "COINx", "GMEx"] ∧
    ∃ k, catalogKeys.find? (fun s => isSubstr s reply) = some k ∧
      k ∈ catalogKeys ∧ resolvePick reply = (k, false) := by
  refine ⟨by decide, ?_⟩
  have hsome : (catalogKeys.find? fun s => isSubstr s reply).isSome :=
    List.find?_isSome.mpr ⟨T, hT, hsub⟩
  obtain ⟨k, hk⟩ := Option.isSome_iff_exists.mp hsome
  have hmem : k ∈ catalogKeys := List.mem_of_find?_eq_some hk
  have hres : resolvePick reply = (k, false) := by
    unfold resolvePick
    rw [scanKeys_eq_find, hk]
    simp [List.elem_iff.mpr hmem, hmem]
  exact ⟨k, hk, hmem, hres⟩

/-- Witness for C1 at a concrete reply containing both NVDAx and TSLAx:
the first-declared key TSLAx wins. -/
theorem ticker_extraction_first_declared_wins_witness :
    catalogKeys = ["AAPLx", "TSLAx", "NVDAx", "GOOGLx", "AMZNx",
      "MSFTx", "METAx", "SPYx", "COINx", "GMEx"] ∧
    ∃ k, catalogKeys.find? (fun s => isSubstr s "I would buy NVDAx or TSLAx") = some k ∧
      k ∈ catalogKeys ∧ resolvePick "I would buy NVDAx or TSLAx" = (k, false) :=
  ticker_extraction_first_declared_wins "NVDAx" "I would buy NVDAx or TSLAx"
    (by decide) (by decide)

/-- C5: a reply in which no catalog ticker occurs as a substring resolves
to the fixed default TSLAx, with the warning emitted. -/
theorem unrecognized_reply_defaults_to_tslax (reply : String)
    (h : ∀ k ∈ catalogKeys, isSubstr k reply = false) :
    resolvePick reply = ("TSLAx", true) := by
  have hnone : catalogKeys.find? (fun s => isSubstr s reply) = none :=
    List.find?_eq_none.mpr (by intro x hx; simp [h x hx])
  have hmemf : reply ∉ catalogKeys := by
    intro hm
    have hff := h reply hm
    rw [isSubstr_refl] at hff
    exact absurd hff (by simp)
  have hnm : ¬ catalogKeys.contains reply = true := fun hc =>
    hmemf (List.elem_iff.mp hc)
  unfold resolvePick
  rw [scanKeys_eq_find, hnone]
  simp only [Option.getD_none]
  rw [if_neg (by simpa using hnm)]

/-- Witness for C5 at the concrete reply "banana", which contains no
catalog ticker. -/
theorem unrecognized_reply_defaults_to_tslax_witness :
    resolvePick "banana" = ("TSLAx", true) :=
  unrecognized_reply_defaults_to_tslax "banana" (by decide)

/-- C2 counterexample: with all three variables set, but the first set to
the empty string, the loader does not return the three values; it reports
JUPITER_API_KEY — a variable that is set, not unset — as missing and exits
with status 1. -/
theorem load_env_empty_string_counterexample :
    load_env (some "") (some "xai-key") (some "sol-key") =
      Except.error ["JUPITER_API_KEY"] := rfl

/-- C2 (amended): if k of the three variables are unset or set to the
empty string, the loader reports exactly those k names in one batch and
exits with status 1; if all three are set to non-empty strings it returns
the three values unmodified. -/
theorem load_env_reports_missing_batch (j x p : Option String) :
    (∀ a b c, j = some a → x = some b → p = some c →
        a ≠ "" → b ≠ "" → c ≠ "" → load_env j x p = Except.ok (a, b, c)) ∧
    ((isMissing j = true ∨ isMissing x = true ∨ isMissing p = true) →
      ∃ L, load_env j x p = Except.error L ∧
        L.length = ((if isMissing j then 1 else 0) + (if isMissing x then 1 else 0)
          + (if isMissing p then 1 else 0)) ∧
        (∀ nm, nm ∈ L ↔
          ((nm = "JUPITER_API_KEY" ∧ isMissing j = true) ∨
           (nm = "XAI_API_KEY" ∧ isMissing x = true) ∨
           (nm = "SOLANA_PRIVATE_KEY" ∧ isMissing p = true)))) := by
  constructor
  · intro a b c hj hx hp ha hb hc
    subst hj; subst hx; subst hp
    have ha' : a.isEmpty = false := by
      simp only [Bool.eq_false_iff, ne_eq, String.isEmpty_iff]; exact ha
    have hb' : b.isEmpty = false := by
      simp only [Bool.eq_false_iff, ne_eq, String.isEmpty_iff]; exact hb
    have hc' : c.isEmpty = false := by
      simp only [Bool.eq_false_iff, ne_eq, String.isEmpty_iff]; exact hc
    simp [load_env, isMissing, ha', hb', hc']
  · intro hmiss
    cases hj : isMissing j <;> cases hx : isMissing x <;> cases hp : isMissing p
    · simp [hj, hx, hp] at hmiss
    · exact ⟨["SOLANA_PRIVATE_KEY"], by simp [load_env, hj, hx, hp], by simp,
        fun nm => by simp [hj, hx, hp]⟩
    · exact ⟨["XAI_API_KEY"], by simp [load_env, hj, hx, hp], by simp,
        fun nm => by simp [hj, hx, hp]⟩
    · exact ⟨["XAI_API_KEY", "SOLANA_PRIVATE_KEY"],
        by simp [load_env, hj, hx, hp], by simp,
        fun nm => by simp [hj, hx, hp]⟩
    · exact ⟨["JUPITER_API_KEY"], by simp [load_env, hj, hx, hp], by simp,
        fun nm => by simp [hj, hx, hp]⟩
    · exact ⟨["JUPITER_API_KEY", "SOLANA_PRIVATE_KEY"],
        by simp [load_env, hj, hx, hp], by simp,
        fun nm => by simp [hj, hx, hp]⟩
    · exact ⟨["JUPITER_API_KEY", "XAI_API_KEY"],
        by simp [load_env, hj, hx, hp], by simp,
        fun nm => by simp [hj, hx, hp]⟩
    · exact ⟨["JUPITER_API_KEY", "XAI_API_KEY", "SOLANA_PRIVATE_KEY"],
        by simp [load_env, hj, hx, hp], by simp,
        fun nm => by simp [hj, hx, hp]⟩

/-- Witness for C2 (amended): all variables set to non-empty values are
returned unmodified, and with the first and third unset the loader reports
exactly those two names. -/
theorem load_env_reports_missing_batch_witness :
    load_env (some "jup-key") (some "xai-key") (some "sol-key") =
      Except.ok ("jup-key", "xai-key", "sol-key") ∧
    (∃ L, load_env none (some "xai-key") none = Except.error L ∧
      L.length = ((if isMissing (none : Option String) then 1 else 0)
        + (if isMissing (some "xai-key") then 1 else 0)
        + (if isMissing (none : Option String) then 1 else 0)) ∧
      (∀ nm, nm ∈ L ↔
        ((nm = "JUPITER_API_KEY" ∧ isMissing (none : Option String) = true) ∨
         (nm = "XAI_API_KEY" ∧ isMissing (some "xai-key") = true) ∨
         (nm = "SOLANA_PRIVATE_KEY" ∧ isMissing (none : Option String) = true)))) :=
  ⟨(load_env_reports_missing_batch (some "jup-key") (some "xai-key") (some "sol-key")).1
      "jup-key" "xai-key" "sol-key" rfl rfl rfl (by decide) (by decide) (by decide),
   (load_env_reports_missing_batch none (some "xai-key") none).2 (Or.inl (by decide))⟩

/-- C10: a variable set to the empty string is treated exactly like an
unset one — the loader behaves identically in either case, and an
empty-valued first variable is reported in the missing-names batch with
an exit-1 error rather than returned as a value. -/
theorem empty_env_var_treated_as_unset (xv pv : Option String) :
    (load_env (some "") xv pv = load_env none xv pv) ∧
    (∀ jv, load_env jv (some "") pv = load_env jv none pv) ∧
    (∀ jv, load_env jv xv (some "") = load_env jv xv none) ∧
    ∃ L, load_env (some "") xv pv = Except.error L ∧ "JUPITER_API_KEY" ∈ L := by
  refine ⟨rfl, ?_, ?_, ?_⟩
  · intro jv
    cases jv with
    | none => rfl
    | some s =>
        cases hs : s.isEmpty <;>
          simp [load_env, isMissing, hs, String.isEmpty_iff]
  · intro jv
    cases jv with
    | none => rfl
    | some s =>
        cases hs : s.isEmpty <;>
          simp [load_env, isMissing, hs, String.isEmpty_iff]
  · exact ⟨_, rfl, List.mem_cons_self _ _⟩

/-- Witness for C10 at concrete values of the other two variables. -/
theorem empty_env_var_treated_as_unset_witness :
    (load_env (some "") (some "xai-key") none =
      load_env none (some "xai-key") none) ∧
    (∀ jv, load_env jv (some "") none = load_env jv none none) ∧
    (∀ jv, load_env jv (some "xai-key") (some "") =
      load_env jv (some "xai-key") none) ∧
    ∃ L, load_env (some "") (some "xai-key") none = Except.error L ∧
      "JUPITER_API_KEY" ∈ L :=
  empty_env_var_treated_as_unset (some "xai-key") none

/-- C3: for every order response lacking a "transaction" field, `main`
prints the full JSON payload of the order response, exits with status 1,
and invokes neither the signing step nor the execution step — regardless
of how signing or execution would have behaved. -/
theorem missing_transaction_exits_one_without_signing
    (order execResult : Dict) (signRes : Option String)
    (h : hasKey order "transaction" = false) :
    mainFromOrder order signRes execResult =
      { signingInvoked := false, executeInvoked := false,
        outcome := Outcome.exit1 order } ∧
    completesZero (Outcome.exit1 order) = false := by
  refine ⟨?_, rfl⟩
  unfold mainFromOrder
  rw [h]
  simp

/-- Witness for C3 at a concrete order response carrying only an error
field. -/
theorem missing_transaction_exits_one_without_signing_witness :
    mainFromOrder [("error", "no route")] (some "signedtx")
        [("status", "Success")] =
      { signingInvoked := false, executeInvoked := false,
        outcome := Outcome.exit1 [("error", "no route")] } ∧
    completesZero (Outcome.exit1 [("error", "no route")]) = false :=
  missing_transaction_exits_one_without_signing
    [("error", "no route")] [("status", "Success")] (some "signedtx") (by decide)

/-- C4: whenever the order carried both required fields and signing
produced a value, an HTTP-200 execution response whose "status" field is
anything other than "Success" leads to the failure JSON being printed in
the final report and a normal completion with exit code 0 — no exception
is raised and the non-success status is not treated as a hard failure. -/
theorem soft_failure_reports_and_exits_zero
    (order execResult : Dict) (signed : String)
    (ht : hasKey order "transaction" = true)
    (hr : hasKey order "requestId" = true)
    (hs : lookupD execResult "status" ≠ some "Success") :
    mainFromOrder order (some signed) execResult =
      { signingInvoked := true, executeInvoked := true,
        outcome := Outcome.failureReport execResult } ∧
    completesZero (Outcome.failureReport execResult) = true := by
  refine ⟨?_, rfl⟩
  obtain ⟨rid, hrid⟩ := Option.isSome_iff_exists.mp hr
  unfold mainFromOrder
  rw [ht, if_neg (show ¬ (true = false) by decide), hrid]
  simp [hs]

/-- Witness for C4 at the spec's soft-failure scenario: the execute
endpoint reports status "Failed" with a slippage error. -/
theorem soft_failure_reports_and_exits_zero_witness :
    mainFromOrder [("transaction", "dGVzdA=="), ("requestId", "abc123")]
        (some "c2lnbmVk")
        [("status", "Failed"), ("error", "slippage exceeded")] =
      { signingInvoked := true, executeInvoked := true,
        outcome := Outcome.failureReport
          [("status", "Failed"), ("error", "slippage exceeded")] } ∧
    completesZero (Outcome.failureReport
      [("status", "Failed"), ("error", "slippage exceeded")]) = true :=
  soft_failure_reports_and_exits_zero
    [("transaction", "dGVzdA=="), ("requestId", "abc123")]
    [("status", "Failed"), ("error", "slippage exceeded")]
    "c2lnbmVk" (by decide) (by decide) (by decide)

/-- C8: an execution response with status "Success" but no "signature" key
makes the final report's explorer-link line raise an uncaught KeyError at
`result["signature"]`, so the run does not complete with exit code 0. -/
theorem success_without_signature_raises_keyerror
    (order execResult : Dict) (signed : String)
    (ht : hasKey order "transaction" = true)
    (hr : hasKey order "requestId" = true)
    (hs : lookupD execResult "status" = some "Success")
    (hsig : lookupD execResult "signature" = none) :
    mainFromOrder order (some signed) execResult =
      { signingInvoked := true, executeInvoked := true,
        outcome := Outcome.uncaughtKeyError "signature" } ∧
    completesZero (Outcome.uncaughtKeyError "signature") = false := by
  refine ⟨?_, rfl⟩
  obtain ⟨rid, hrid⟩ := Option.isSome_iff_exists.mp hr
  unfold mainFromOrder
  rw [ht, if_neg (show ¬ (true = false) by decide), hrid]
  simp [hs, hsig]

/-- Witness for C8 at a concrete Success response lacking the signature
key. -/
theorem success_without_signature_raises_keyerror_witness :
    mainFromOrder [("transaction", "dGVzdA=="), ("requestId", "abc123")]
        (some "c2lnbmVk") [("status", "Success")] =
      { signingInvoked := true, executeInvoked := true,
        outcome := Outcome.uncaughtKeyError "signature" } ∧
    completesZero (Outcome.uncaughtKeyError "signature") = false :=
  success_without_signature_raises_keyerror
    [("transaction", "dGVzdA=="), ("requestId", "abc123")]
    [("status", "Success")] "c2lnbmVk" (by decide) (by decide) rfl rfl

/-- C9: an order response with a "transaction" field but no "requestId"
field passes the transaction-presence check, reaches the signing step, and
then raises an uncaught KeyError at `order["requestId"]` before the
execution step — not the controlled full-payload exit-1 diagnostic used
for a missing transaction field. -/
theorem missing_requestid_keyerror_after_signing
    (order execResult : Dict) (signed : String)
    (ht : hasKey order "transaction" = true)
    (hr : lookupD order "requestId" = none) :
    mainFromOrder order (some signed) execResult =
      { signingInvoked := true, executeInvoked := false,
        outcome := Outcome.uncaughtKeyError "requestId" } ∧
    (∀ payload, (mainFromOrder order (some signed) execResult).outcome ≠
      Outcome.exit1 payload) := by
  have hmain : mainFromOrder order (some signed) execResult =
      { signingInvoked := true, executeInvoked := false,
        outcome := Outcome.uncaughtKeyError "requestId" } := by
    unfold mainFromOrder
    rw [ht, if_neg (show ¬ (true = false) by decide), hr]
  refine ⟨hmain, ?_⟩
  intro payload
  rw [hmain]
  simp

/-- Witness for C9 at a concrete order response holding a transaction blob
but no request identifier. -/
theorem missing_requestid_keyerror_after_signing_witness :
    mainFromOrder [("transaction", "dGVzdA==")] (some "c2lnbmVk")
        [("status", "Success")] =
      { signingInvoked := true, executeInvoked := false,
        outcome := Outcome.uncaughtKeyError "requestId" } ∧
    (∀ payload, (mainFromOrder [("transaction", "dGVzdA==")] (some "c2lnbmVk")
        [("status", "Success")]).outcome ≠ Outcome.exit1 payload) :=
  missing_requestid_keyerror_after_signing
    [("transaction", "dGVzdA==")] [("status", "Success")] "c2lnbmVk"
    (by decide) rfl

/-- C7: the wallet loader is deterministic — it is a pure function of the
base58 secret string, so for a valid base58 secret of the correct byte
length (64) it always yields the same keypair, hence the same derived
public key, on every run. -/
theorem load_wallet_deterministic (s : String) (raw : List Nat)
    (hdec : b58decode s = some raw) (hlen : raw.length = 64) :
    load_wallet s = some ⟨raw⟩ ∧
    (∀ kp1 kp2, load_wallet s = some kp1 → load_wallet s = some kp2 →
      kp1 = kp2 ∧ kp1.pubkeyBytes = kp2.pubkeyBytes) := by
  have hlw : load_wallet s = some (⟨raw⟩ : Keypair) := by
    unfold load_wallet Keypair.from_bytes
    rw [hdec]
    simp [hlen]
  refine ⟨hlw, ?_⟩
  intro kp1 kp2 h1 h2
  obtain rfl : kp1 = (⟨raw⟩ : Keypair) :=
    Option.some_injective _ (h1.symm.trans hlw)
  obtain rfl : kp2 = (⟨raw⟩ : Keypair) :=
    Option.some_injective _ (h2.symm.trans hlw)
  exact ⟨rfl, rfl⟩

/-- Witness for C7 at the 64-character all-'1' secret, which decodes to
the 64-byte all-zero keypair array. -/
theorem load_wallet_deterministic_witness :
    load_wallet
        "1111111111111111111111111111111111111111111111111111111111111111" =
      some ⟨List.replicate 64 0⟩ ∧
    (∀ kp1 kp2,
      load_wallet
          "1111111111111111111111111111111111111111111111111111111111111111" =
        some kp1 →
      load_wallet
          "1111111111111111111111111111111111111111111111111111111111111111" =
        some kp2 →
      kp1 = kp2 ∧ kp1.pubkeyBytes = kp2.pubkeyBytes) :=
  load_wallet_deterministic
    "1111111111111111111111111111111111111111111111111111111111111111"
    (List.replicate 64 0) (by decide) (by decide)

/-- Every six-bit value round-trips through the base64 alphabet. -/
theorem dtbl_tbl : ∀ n, n < 64 → dtbl (tbl n) = some n := by decide

/-- No six-bit value encodes to the padding character. -/
theorem tbl_ne_pad : ∀ n, n < 64 → ¬ tbl n = '=' := by decide

/-- Base64 decoding inverts base64 encoding on byte lists. -/
theorem b64_decode_encode : ∀ raw : List Nat, (∀ x ∈ raw, x < 256) →
    b64d (b64e raw) = some raw
  | [], _ => rfl
  | [a], h => by
      have ha : a < 256 := h a (by simp)
      simp [b64e, b64d, dtbl_tbl _ (by omega : a / 4 < 64),
        dtbl_tbl _ (by omega : (a % 4) * 16 < 64)]
      all_goals omega
  | [a, b], h => by
      have ha : a < 256 := h a (by simp)
      have hb : b < 256 := h b (by simp)
      have h1 : (a % 4) * 16 + b / 16 < 64 := by omega
      have h2 : (b % 16) * 4 < 64 := by omega
      simp [b64e, b64d, dtbl_tbl _ (by omega : a / 4 < 64), dtbl_tbl _ h1,
        dtbl_tbl _ h2, tbl_ne_pad _ h2]
      all_goals omega
  | a :: b :: c :: rest, h => by
      have ha : a < 256 := h a (by simp)
      have hb : b < 256 := h b (by simp)
      have hc : c < 256 := h c (by simp)
      have ih := b64_decode_encode rest (fun x hx => h x (by simp [hx]))
      have h1 : (a % 4) * 16 + b / 16 < 64 := by omega
      have h2 : (b % 16) * 4 + c / 64 < 64 := by omega
      have h3 : c % 64 < 64 := by omega
      simp [b64e, b64d, dtbl_tbl _ (by omega : a / 4 < 64), dtbl_tbl _ h1,
        dtbl_tbl _ h2, dtbl_tbl _ h3, tbl_ne_pad _ h2, tbl_ne_pad _ h3, ih]
      all_goals constructor <;> omega

/-- Base64 decoding inverts base64 encoding at the string level. -/
theorem b64decode_encode (raw : List Nat) (h : ∀ x ∈ raw, x < 256) :
    b64decode (b64encode raw) = some raw :=
  b64_decode_encode raw h

/-- C6 counterexample: the claim fails as stated.  "AgUG" is a base64
encoding of a decodable versioned transaction (bytes [2, 5, 6]: a message
requiring the two signers 5 and 6, no signatures), yet the signing step
does not produce a signed transaction: the solders constructor at line 164
rejects the single wallet keypair 9 with a `SignerError`, modelled as
`none`. -/
theorem sign_transaction_multisig_counterexample :
    b64decode "AgUG" = some [2, 5, 6] ∧
    demoFromBytes [2, 5, 6] = some { message := [5, 6], signers := [] } ∧
    sign_transaction demoRequiredSigners demoPubkeyOf demoFromBytes
      demoToBytes "AgUG" 9 = none :=
  ⟨by decide, rfl, by decide⟩

/-- C6 (amended): for every order whose "transaction" field is a base64
encoding of a decodable versioned transaction whose message requires
exactly the loaded wallet as its single signer, the signing step succeeds
and produces a base64-encoded transaction that decodes to the
serialisation of a transaction whose message equals the message of the
decoded order transaction, signed with exactly the single loaded wallet
keypair as the signer list.  (For any other required signer set the
constructor raises instead of producing a transaction.) -/
theorem sign_transaction_preserves_message_single_signer
    {Msg Kp Pk : Type} [DecidableEq Pk]
    (requiredSigners : Msg → List Pk) (pubkeyOf : Kp → Pk)
    (fromBytes : List Nat → Option (VersionedTransaction Msg Kp))
    (toBytes : VersionedTransaction Msg Kp → List Nat)
    (txBlob : String) (wallet : Kp) (raw : List Nat)
    (tx : VersionedTransaction Msg Kp)
    (hdec : b64decode txBlob = some raw)
    (htx : fromBytes raw = some tx)
    (hsig : requiredSigners tx.message = [pubkeyOf wallet])
    (hbytes : ∀ x ∈ toBytes { message := tx.message, signers := [wallet] },
      x < 256) :
    ∃ out, sign_transaction requiredSigners pubkeyOf fromBytes toBytes
        txBlob wallet = some out ∧
      ∃ stx : VersionedTransaction Msg Kp,
        b64decode out = some (toBytes stx) ∧
        stx.message = tx.message ∧ stx.signers = [wallet] := by
  have hcheck :
      tryNewCheck requiredSigners pubkeyOf tx.message [wallet] = true := by
    unfold tryNewCheck
    rw [hsig]
    simp
  refine ⟨b64encode (toBytes { message := tx.message, signers := [wallet] }),
    ?_, ?_⟩
  · unfold sign_transaction VersionedTransaction.try_new
    rw [hdec]
    simp [htx, hcheck]
  · exact ⟨{ message := tx.message, signers := [wallet] },
      b64decode_encode _ hbytes, rfl, rfl⟩

/-- Witness for C6 (amended) with the demonstration codec: the blob "AQk="
decodes to bytes [1, 9], a transaction whose message requires exactly the
signer 9 and carries no signatures; signing with wallet 9 yields a base64
string decoding to the same message signed by exactly wallet 9. -/
theorem sign_transaction_preserves_message_single_signer_witness :
    ∃ out, sign_transaction demoRequiredSigners demoPubkeyOf demoFromBytes
        demoToBytes "AQk=" 9 = some out ∧
      ∃ stx : VersionedTransaction (List Nat) Nat,
        b64decode out = some (demoToBytes stx) ∧
        stx.message = [9] ∧ stx.signers = [9] :=
  sign_transaction_preserves_message_single_signer demoRequiredSigners
    demoPubkeyOf demoFromBytes demoToBytes "AQk=" 9 [1, 9]
    { message := [9], signers := [] } (by decide) rfl rfl (by decide)

end MoltApp
